import Mathlib

/-!
Verification development for the sentinel-app detection dashboard.

The definitions below are a shallow embedding of the JavaScript sources:
JS numbers are modelled as `ℚ`, JS strings as `String`, absent/nullable
fields as `Option`, and the asynchronous backend boundary (Tauri command
invocations) as explicit boolean outcome parameters.  Each definition
cites the source file and function it embeds.
-/

/-- Result shape returned by `validateThreshold` in src/src/utils/validation.js:
an object with `isValid` and `error` keys. -/
structure ThresholdCheck where
  isValid : Bool
  error : Option String
deriving Repr, DecidableEq

/-- Result shape returned by `validateThresholdRanges` in
src/src/utils/validation.js: `isValid`, `error` and `field` keys. -/
structure RangeCheck where
  isValid : Bool
  error : Option String
  field : Option String
deriving Repr, DecidableEq

/-- Embeds `validateThreshold(value, min, max)` from src/src/utils/validation.js
(lines 6-18).  The input is modelled as a rational, so the `isNaN` branch for
non-numeric strings is outside the model; the numeric path rejects values
below `min` or above `max` and accepts everything else. -/
def validateThreshold (value min max : ℚ) : ThresholdCheck :=
  if value < min ∨ value > max then
    ⟨false, some "Value must be between min% and max%"⟩
  else
    ⟨true, none⟩

/-- The thresholds record handled by src/src/utils/validation.js and
src/src/components/views/DetectionSettingsReal.jsx: three cut points,
expressed in percent in the UI layer. -/
structure Thresholds where
  immediate_alert : ℚ
  review_queue : ℚ
  log_only : ℚ
deriving Repr, DecidableEq

/-- Embeds `validateThresholdRanges(thresholds)` from src/src/utils/validation.js
(lines 21-57): checks P1 > P2, P2 > P4, and a minimum 5-point gap between
adjacent cut points, returning the first failing check's error and field. -/
def validateThresholdRanges (thresholds : Thresholds) : RangeCheck :=
  if thresholds.immediate_alert ≤ thresholds.review_queue then
    ⟨false, some "P1 threshold must be higher than P2", some "immediate_alert"⟩
  else if thresholds.review_queue ≤ thresholds.log_only then
    ⟨false, some "P2 threshold must be higher than P4", some "review_queue"⟩
  else if thresholds.immediate_alert - thresholds.review_queue < 5 then
    ⟨false, some "P1 and P2 thresholds should have at least 5% difference", some "immediate_alert"⟩
  else if thresholds.review_queue - thresholds.log_only < 5 then
    ⟨false, some "P2 and P4 thresholds should have at least 5% difference", some "review_queue"⟩
  else
    ⟨true, none, none⟩

/-- The three threshold identifiers used by DetectionSettingsReal.jsx. -/
inductive ThresholdField where
  | immediate_alert
  | review_queue
  | log_only
deriving Repr, DecidableEq

/-- The spread-update `{ ...thresholds, [id]: value }` used by
`handleThresholdChange` in DetectionSettingsReal.jsx (line 170). -/
def setThresholdField (t : Thresholds) (id : ThresholdField) (value : ℚ) : Thresholds :=
  match id with
  | .immediate_alert => { t with immediate_alert := value }
  | .review_queue => { t with review_queue := value }
  | .log_only => { t with log_only := value }

/-- Outcome of one `handleThresholdChange` call: whether the backend
`update_threshold` command was invoked, and the resulting thresholds state. -/
structure UpdateOutcome where
  backendInvoked : Bool
  thresholds : Thresholds
deriving Repr, DecidableEq

/-- Embeds `handleThresholdChange(id, value)` from
src/src/components/views/DetectionSettingsReal.jsx (lines 151-206):
validate the individual value (bounds 50 and 100), then validate the ranges
of the updated record; on any validation failure return early without
invoking the backend and without touching the thresholds state.  Otherwise
invoke the backend `update_threshold` command (its success is the explicit
parameter `backendSuccess`) and commit the new value only on success. -/
def handleThresholdChange (thresholds : Thresholds) (id : ThresholdField) (value : ℚ)
    (backendSuccess : Bool) : UpdateOutcome :=
  if (validateThreshold value 50 100).isValid = false then
    ⟨false, thresholds⟩
  else
    let updatedThresholds := setThresholdField thresholds id value
    if (validateThresholdRanges updatedThresholds).isValid = false then
      ⟨false, thresholds⟩
    else if backendSuccess then
      ⟨true, updatedThresholds⟩
    else
      ⟨true, thresholds⟩

/-- C2: `validateThresholdRanges` returns `isValid = true` exactly when the
cut points are strictly ordered P1 > P2 > P4 with at least a 5-point gap
between adjacent cut points; on failure the error is non-null and the
`field` key names one of the offending cut points. -/
theorem validateThresholdRanges_spec (t : Thresholds) :
    ((validateThresholdRanges t).isValid = true ↔
      (t.immediate_alert > t.review_queue ∧ t.review_queue > t.log_only ∧
       t.immediate_alert - t.review_queue ≥ 5 ∧ t.review_queue - t.log_only ≥ 5)) ∧
    ((validateThresholdRanges t).isValid = false →
      (validateThresholdRanges t).error ≠ none ∧
      ((validateThresholdRanges t).field = some "immediate_alert" ∨
       (validateThresholdRanges t).field = some "review_queue")) := by
  unfold validateThresholdRanges
  split_ifs with h1 h2 h3 h4 <;> simp_all

/-- Closed witness for `validateThresholdRanges_spec` at a concrete record. -/
theorem validateThresholdRanges_spec_witness :
    ((validateThresholdRanges ⟨95, 85, 70⟩).isValid = true ↔
      ((95 : ℚ) > 85 ∧ (85 : ℚ) > 70 ∧ (95 : ℚ) - 85 ≥ 5 ∧ (85 : ℚ) - 70 ≥ 5)) ∧
    ((validateThresholdRanges ⟨95, 85, 70⟩).isValid = false →
      (validateThresholdRanges ⟨95, 85, 70⟩).error ≠ none ∧
      ((validateThresholdRanges ⟨95, 85, 70⟩).field = some "immediate_alert" ∨
       (validateThresholdRanges ⟨95, 85, 70⟩).field = some "review_queue")) :=
  validateThresholdRanges_spec ⟨95, 85, 70⟩

/-- C1: whenever the proposed threshold record violates the ordering or the
minimum-gap invariant (i.e. `validateThresholdRanges` rejects it), the
update path returns early: the backend `update_threshold` command is not
invoked and every field of the thresholds state is left unchanged. -/
theorem handleThresholdChange_rejects_invalid (t : Thresholds) (id : ThresholdField)
    (value : ℚ) (backendSuccess : Bool)
    (h : (validateThresholdRanges (setThresholdField t id value)).isValid = false) :
    handleThresholdChange t id value backendSuccess = ⟨false, t⟩ := by
  unfold handleThresholdChange
  split_ifs <;> simp_all

/-- Closed witness for `handleThresholdChange_rejects_invalid`: lowering P1
to 80 while P2 is 85 breaks the ordering, so the backend is not called and
the thresholds survive unchanged. -/
theorem handleThresholdChange_rejects_invalid_witness :
    (validateThresholdRanges (setThresholdField ⟨95, 85, 70⟩ .immediate_alert 80)).isValid
        = false ∧
    handleThresholdChange ⟨95, 85, 70⟩ .immediate_alert 80 true = ⟨false, ⟨95, 85, 70⟩⟩ :=
  ⟨by decide,
   handleThresholdChange_rejects_invalid ⟨95, 85, 70⟩ .immediate_alert 80 true (by decide)⟩

/-- C7 counterexample: the value 100 is accepted by `validateThreshold` with
bounds 50 and 100, yet its decimal conversion 100/100 = 1 is not strictly
below 1, so the accepted cut point is not strictly inside (0,1). -/
theorem validateThreshold_open_interval_counterexample :
    (validateThreshold 100 50 100).isValid = true ∧ ¬ ((100 : ℚ) / 100 < 1) := by
  constructor
  · decide
  · norm_num

/-- C7 amended: every value accepted by `validateThreshold` with bounds 50
and 100 has a decimal conversion in the half-open interval (0, 1]: strictly
positive and at most 1 (equality reached at value 100). -/
theorem validateThreshold_unit_interval (value : ℚ)
    (h : (validateThreshold value 50 100).isValid = true) :
    0 < value / 100 ∧ value / 100 ≤ 1 := by
  unfold validateThreshold at h
  by_cases hcond : value < 50 ∨ value > 100
  · simp [hcond] at h
  · push_neg at hcond
    obtain ⟨hlo, hhi⟩ := hcond
    exact ⟨div_pos (by linarith) (by norm_num),
           (div_le_one (by norm_num)).mpr (by linarith)⟩

/-- Closed witness for `validateThreshold_unit_interval` at value 80. -/
theorem validateThreshold_unit_interval_witness :
    (validateThreshold 80 50 100).isValid = true ∧
    (0 < (80 : ℚ) / 100 ∧ (80 : ℚ) / 100 ≤ 1) :=
  ⟨by decide, validateThreshold_unit_interval 80 (by decide)⟩

/-- Priority tiers of the detection pipeline (glossary of the design
document): P1 immediate, P2 review, P4 log-only, discard. -/
inductive Tier where
  | DISCARD
  | P4
  | P2
  | P1
deriving Repr, DecidableEq

/-- Numeric severity order on tiers: DISCARD < P4 < P2 < P1. -/
def Tier.rank : Tier → ℕ
  | .DISCARD => 0
  | .P4 => 1
  | .P2 => 2
  | .P1 => 3

/-- Modelled from the spec: the Threshold Classifier of design section 4.2 is
implemented in the detection backend, which is not among the inspected
sources (src/ holds only the UI that configures its thresholds), so it is
modelled from the spec classification rules: confidence at or above
`immediate_alert` is P1, at or above `review_queue` is P2, at or above
`log_only` is P4, and anything below is DISCARD; boundary values go to the
higher tier. -/
def classify (confidence : ℚ) (T : Thresholds) : Tier :=
  if confidence ≥ T.immediate_alert then .P1
  else if confidence ≥ T.review_queue then .P2
  else if confidence ≥ T.log_only then .P4
  else .DISCARD

/-- C3: for valid thresholds the classifier is a total deterministic function
into the four tiers (exactly one output tier), its output is monotone
non-decreasing in the confidence, and a confidence exactly equal to a cut
point lands in the higher tier (the comparison is a weak inequality). -/
theorem classify_total_monotone_boundary :
    (∀ (c : ℚ) (T : Thresholds), ∃! t : Tier, classify c T = t) ∧
    (∀ (T : Thresholds) (c1 c2 : ℚ),
      T.immediate_alert > T.review_queue → T.review_queue > T.log_only →
      c1 ≤ c2 → (classify c1 T).rank ≤ (classify c2 T).rank) ∧
    (∀ T : Thresholds,
      T.immediate_alert > T.review_queue → T.review_queue > T.log_only →
      classify T.immediate_alert T = .P1 ∧ classify T.review_queue T = .P2 ∧
      classify T.log_only T = .P4) := by
  refine ⟨fun c T => ⟨classify c T, rfl, fun t ht => ht.symm⟩, ?_, ?_⟩
  · intro T c1 c2 _ _ h12
    unfold classify
    split_ifs <;> simp_all [Tier.rank] <;> linarith
  · intro T h1 h2
    unfold classify
    split_ifs <;> simp_all <;> linarith

/-- Closed witness for `classify_total_monotone_boundary` at the spec's
example configuration: thresholds 0.95 / 0.85 / 0.70, confidence pair
0.80 against 0.91, and the three boundary confidences. -/
theorem classify_total_monotone_boundary_witness :
    (classify (80/100) ⟨95/100, 85/100, 70/100⟩).rank ≤
      (classify (91/100) ⟨95/100, 85/100, 70/100⟩).rank ∧
    (classify (95/100) ⟨95/100, 85/100, 70/100⟩ = .P1 ∧
     classify (85/100) ⟨95/100, 85/100, 70/100⟩ = .P2 ∧
     classify (70/100) ⟨95/100, 85/100, 70/100⟩ = .P4) :=
  ⟨classify_total_monotone_boundary.2.1 ⟨95/100, 85/100, 70/100⟩ (80/100) (91/100)
      (by norm_num) (by norm_num) (by norm_num),
   classify_total_monotone_boundary.2.2 ⟨95/100, 85/100, 70/100⟩
      (by norm_num) (by norm_num)⟩

/-- The formatted UI alert record built by the hooks in
src/src/hooks/useAlertSystem.js and src/src/hooks/useRealAlertSystem.js:
an id, a unix timestamp, the source camera, a tier string, a confidence,
a status string ("active" or "acknowledged"), a location and a description. -/
structure Alert where
  id : String
  timestamp : ℚ
  camera_id : String
  alert_level : String
  confidence : ℚ
  status : String
  location : String
  description : String
deriving Repr, DecidableEq

/-- Embeds `acknowledgeAlert(alertId)` of the basic `useAlertSystem` hook
(src/src/hooks/useAlertSystem.js lines 22-30): map over the alert list and
set the matching record's status to "acknowledged", leaving others as they
are. -/
def acknowledgeAlert (alerts : List Alert) (alertId : String) : List Alert :=
  alerts.map (fun alert =>
    if alert.id = alertId then { alert with status := "acknowledged" } else alert)

/-- The `setAlerts(current => current.map(...))` status write repeated inside
`acknowledgeAlert` of `useStableAlertSystem` (src/src/hooks/useAlertSystem.js
lines 289-295, 309-315 and 331-337): set the matching record's status. -/
def setAlertStatus (alerts : List Alert) (alertId st : String) : List Alert :=
  alerts.map (fun alert =>
    if alert.id = alertId then { alert with status := st } else alert)

/-- Embeds the full `acknowledgeAlert(alertId)` flow of `useStableAlertSystem`
(src/src/hooks/useAlertSystem.js lines 287-354): optimistically mark the
record "acknowledged"; if the backend `acknowledge_alert` command fails,
revert the record to "active" and run up to three retries, marking the
record "acknowledged" again if some retry succeeds.  The backend outcomes
are the explicit parameters `backendSuccess` and `retrySuccesses`. -/
def acknowledgeAlertStable (alerts : List Alert) (alertId : String)
    (backendSuccess : Bool) (retrySuccesses : List Bool) : List Alert :=
  let optimistic := setAlertStatus alerts alertId "acknowledged"
  if backendSuccess then
    optimistic
  else
    let reverted := setAlertStatus optimistic alertId "active"
    if retrySuccesses.any (fun r => r) then
      setAlertStatus reverted alertId "acknowledged"
    else
      reverted

/-- C5: acknowledging is idempotent — acknowledging twice yields exactly the
same alert list as acknowledging once, the list length is preserved, and a
record whose id differs from the acknowledged id is unchanged in place. -/
theorem acknowledgeAlert_idempotent (alerts : List Alert) (alertId : String) :
    acknowledgeAlert (acknowledgeAlert alerts alertId) alertId
        = acknowledgeAlert alerts alertId ∧
    (acknowledgeAlert alerts alertId).length = alerts.length ∧
    (∀ i (h : i < alerts.length), (alerts.get ⟨i, h⟩).id ≠ alertId →
      (acknowledgeAlert alerts alertId)[i]? = some (alerts.get ⟨i, h⟩)) := by
  refine ⟨?_, by simp [acknowledgeAlert], ?_⟩
  · unfold acknowledgeAlert
    rw [List.map_map]
    apply List.map_congr_left
    intro a _
    by_cases h : a.id = alertId <;> simp [h]
  · intro i h hne
    unfold acknowledgeAlert
    rw [List.getElem?_map, List.getElem?_eq_getElem h]
    simp [List.get_eq_getElem] at hne ⊢
    simp [hne]

/-- Closed witness for `acknowledgeAlert_idempotent` on a two-element list:
the record with the other id survives unchanged. -/
theorem acknowledgeAlert_idempotent_witness :
    (⟨"a2", 101, "CAM_002", "P2", 1, "active", "Lobby", "d2"⟩ : Alert).id ≠ "a1" ∧
    (acknowledgeAlert
        [⟨"a1", 100, "CAM_001", "P1", 1, "active", "Dock", "d1"⟩,
         ⟨"a2", 101, "CAM_002", "P2", 1, "active", "Lobby", "d2"⟩] "a1")[1]?
      = some ⟨"a2", 101, "CAM_002", "P2", 1, "active", "Lobby", "d2"⟩ :=
  ⟨by decide,
   (acknowledgeAlert_idempotent
      [⟨"a1", 100, "CAM_001", "P1", 1, "active", "Dock", "d1"⟩,
       ⟨"a2", 101, "CAM_002", "P2", 1, "active", "Lobby", "d2"⟩] "a1").2.2 1
      (by decide) (by decide)⟩

/-- C4 counterexample: a record whose status is already "acknowledged" is
reverted to "active" by an acknowledge call whose backend command and all
retries fail — the stable hook's revert of its optimistic update restores
"active" unconditionally, so acknowledgement is not monotonic. -/
theorem acknowledge_monotonic_counterexample :
    (acknowledgeAlertStable
        [⟨"a1", 100, "CAM_001", "P1", 1, "acknowledged", "Dock", "d1"⟩]
        "a1" false [false, false, false]).map Alert.status = ["active"] := by
  decide

/-- C4 amended: acknowledgement is monotonic on every acknowledge call in
which the backend command succeeds or some retry succeeds — a record whose
status is "acknowledged" keeps that status in place; only a call whose
backend command and retries all fail reverts the record to "active". -/
theorem acknowledge_monotonic_on_success (alerts : List Alert) (alertId : String)
    (backendSuccess : Bool) (retrySuccesses : List Bool)
    (hok : backendSuccess = true ∨ retrySuccesses.any (fun r => r) = true) :
    ∀ i (h : i < alerts.length), (alerts.get ⟨i, h⟩).status = "acknowledged" →
      ∃ b : Alert,
        (acknowledgeAlertStable alerts alertId backendSuccess retrySuccesses)[i]? = some b ∧
        b.status = "acknowledged" := by
  intro i h hack
  simp only [List.get_eq_getElem] at hack
  cases backendSuccess with
  | true =>
    have e : acknowledgeAlertStable alerts alertId true retrySuccesses
        = setAlertStatus alerts alertId "acknowledged" := by
      simp [acknowledgeAlertStable]
    rw [e, setAlertStatus, List.getElem?_map, List.getElem?_eq_getElem h]
    by_cases hid : alerts[i].id = alertId
    · exact ⟨_, rfl, by simp [hid]⟩
    · exact ⟨_, rfl, by simp [hid, hack]⟩
  | false =>
    have hr : retrySuccesses.any (fun r => r) = true := by
      rcases hok with hok | hok
      · simp at hok
      · exact hok
    have e : acknowledgeAlertStable alerts alertId false retrySuccesses
        = setAlertStatus (setAlertStatus (setAlertStatus alerts alertId "acknowledged")
            alertId "active") alertId "acknowledged" := by
      simp [acknowledgeAlertStable, hr]
    rw [e]
    simp only [setAlertStatus, List.map_map]
    rw [List.getElem?_map, List.getElem?_eq_getElem h]
    by_cases hid : alerts[i].id = alertId
    · exact ⟨_, rfl, by simp [Function.comp, hid]⟩
    · exact ⟨_, rfl, by simp [Function.comp, hid, hack]⟩

/-- Closed witness for `acknowledge_monotonic_on_success`: a successful
acknowledge call keeps an already-acknowledged record acknowledged. -/
theorem acknowledge_monotonic_on_success_witness :
    ∃ b : Alert,
      (acknowledgeAlertStable
          [⟨"a1", 100, "CAM_001", "P1", 1, "acknowledged", "Dock", "d1"⟩]
          "a1" true [])[0]? = some b ∧ b.status = "acknowledged" :=
  acknowledge_monotonic_on_success
    [⟨"a1", 100, "CAM_001", "P1", 1, "acknowledged", "Dock", "d1"⟩]
    "a1" true [] (Or.inl rfl) 0 (by decide) (by decide)

/-- Embeds `addAlert(newAlert)` of `useStableAlertSystem`
(src/src/hooks/useAlertSystem.js lines 266-279): a new alert is dropped when
an alert with the same id already exists, or when one from the same camera
lies within 5 seconds of it; otherwise it is prepended and the list capped
at 100 entries. -/
def addAlertStable (current : List Alert) (newAlert : Alert) : List Alert :=
  let existsById := current.any (fun alert => decide (alert.id = newAlert.id))
  let existsBySimilarity := current.any (fun alert =>
    decide (alert.camera_id = newAlert.camera_id ∧
      |alert.timestamp - newAlert.timestamp| < 5))
  if existsById || existsBySimilarity then current
  else (newAlert :: current).take 100

/-- C6 counterexample: two detections from the same camera 2 seconds apart,
the first with confidence 1/2 and the second with confidence 9/10 — exactly
one record remains, but its confidence stays 1/2, the first observation,
not the maximum 9/10 of the two. -/
theorem addAlert_merge_confidence_counterexample :
    addAlertStable
        [⟨"a1", 100, "CAM_001", "P1", 1/2, "active", "Dock", "d1"⟩]
        ⟨"a2", 102, "CAM_001", "P1", 9/10, "active", "Dock", "d2"⟩
      = [⟨"a1", 100, "CAM_001", "P1", 1/2, "active", "Dock", "d1"⟩] ∧
    ¬ ((1/2 : ℚ) = max (1/2 : ℚ) (9/10)) := by
  constructor
  · simp only [addAlertStable, List.any_cons, List.any_nil, Bool.or_false,
      decide_eq_true_eq]
    norm_num
  · norm_num

/-- C6 amended: when a new alert comes from the same camera as an existing
record within the 5-second window, the list is returned unchanged — exactly
one record remains and it keeps its original confidence; the duplicate's
confidence is discarded rather than merged as the maximum. -/
theorem addAlertStable_suppresses_duplicate (current : List Alert) (newAlert : Alert)
    (h : current.any (fun alert =>
        decide (alert.camera_id = newAlert.camera_id ∧
          |alert.timestamp - newAlert.timestamp| < 5)) = true) :
    addAlertStable current newAlert = current := by
  unfold addAlertStable
  rw [h]
  simp

/-- Closed witness for `addAlertStable_suppresses_duplicate` at the
counterexample's input. -/
theorem addAlertStable_suppresses_duplicate_witness :
    ([⟨"a1", 100, "CAM_001", "P1", 1/2, "active", "Dock", "d1"⟩] : List Alert).any
        (fun alert => decide (alert.camera_id = "CAM_001" ∧ |alert.timestamp - 102| < 5))
      = true ∧
    addAlertStable
        [⟨"a1", 100, "CAM_001", "P1", 1/2, "active", "Dock", "d1"⟩]
        ⟨"a2", 102, "CAM_001", "P1", 9/10, "active", "Dock", "d2"⟩
      = [⟨"a1", 100, "CAM_001", "P1", 1/2, "active", "Dock", "d1"⟩] := by
  have hsim : ([⟨"a1", 100, "CAM_001", "P1", 1/2, "active", "Dock", "d1"⟩] : List Alert).any
      (fun alert => decide (alert.camera_id = "CAM_001" ∧ |alert.timestamp - 102| < 5))
      = true := by
    simp only [List.any_cons, List.any_nil, Bool.or_false, decide_eq_true_eq]
    norm_num
  exact ⟨hsim,
    addAlertStable_suppresses_duplicate
      [⟨"a1", 100, "CAM_001", "P1", 1/2, "active", "Dock", "d1"⟩]
      ⟨"a2", 102, "CAM_001", "P1", 9/10, "active", "Dock", "d2"⟩ hsim⟩

/-- `maxRetries` of `useStableAlertSystem` (src/src/hooks/useAlertSystem.js
line 98). -/
def maxRetriesStable : ℕ := 5

/-- Embeds the retry scheduling in the catch branch of `refreshData` in
`useStableAlertSystem` (src/src/hooks/useAlertSystem.js lines 189-221):
after the n-th consecutive failure, the first two failures retry nothing
(silent), failures with 2 < n ≤ maxRetries schedule a retry only for a
manual refresh and only while n < maxRetries, with delay
min(2^n * 1000 ms, 10000 ms); beyond maxRetries nothing is scheduled.
`none` means no retry timer is set. -/
def retryDelayStable (n : ℕ) (isManualRefresh : Bool) : Option ℕ :=
  if n ≤ 2 then none
  else if n ≤ maxRetriesStable then
    if isManualRefresh = true ∧ n < maxRetriesStable then
      some (min (2 ^ n * 1000) 10000)
    else none
  else none

/-- `maxRetries` of `useRealAlertSystem` (src/src/hooks/useRealAlertSystem.js
line 12). -/
def maxRetriesReal : ℕ := 3

/-- Embeds the retry scheduling of `refreshData` in `useRealAlertSystem`
(src/src/hooks/useRealAlertSystem.js lines 84-96): every failure with
n ≤ maxRetries schedules a retry after 2^n * 1000 ms, with no cap. -/
def retryDelayReal (n : ℕ) : Option ℕ :=
  if n ≤ maxRetriesReal then some (2 ^ n * 1000) else none

/-- C8 counterexample: the stable hook schedules no retry at all for the
first consecutive failure (n = 1 ≤ maxRetries), not one with delay
min(2^1*1000, 10000); and the real hook does schedule a retry at
n = maxRetries = 3, so retries do not stop once n reaches maxRetries. -/
theorem retry_backoff_counterexample :
    retryDelayStable 1 true ≠ some (min (2 ^ 1 * 1000) 10000) ∧
    retryDelayStable 1 true = none ∧
    retryDelayReal maxRetriesReal = some 8000 := by
  decide

/-- C8 amended: in the stable hook a retry is scheduled exactly for manual
refreshes with 2 < n < maxRetries (= 5), and its delay is
min(2^n * 1000 ms, 10000 ms); every scheduled delay is at most the 10 s cap,
scheduled delays are monotone non-decreasing in n, and nothing is scheduled
once n reaches maxRetries.  In the real hook a retry with uncapped delay
2^n * 1000 ms is scheduled for every n ≤ maxRetries (= 3), including
n = maxRetries. -/
theorem retry_backoff_characterization :
    (∀ (n : ℕ) (isManualRefresh : Bool), retryDelayStable n isManualRefresh =
        if 2 < n ∧ n < 5 ∧ isManualRefresh = true then some (min (2 ^ n * 1000) 10000)
        else none) ∧
    (∀ (n : ℕ) (isManualRefresh : Bool) (d : ℕ),
        retryDelayStable n isManualRefresh = some d → d ≤ 10000) ∧
    (∀ (n m : ℕ) (b1 b2 : Bool) (d e : ℕ), retryDelayStable n b1 = some d →
        retryDelayStable m b2 = some e → n ≤ m → d ≤ e) ∧
    (∀ (n : ℕ) (isManualRefresh : Bool), maxRetriesStable ≤ n →
        retryDelayStable n isManualRefresh = none) ∧
    (∀ n : ℕ, n ≤ maxRetriesReal → retryDelayReal n = some (2 ^ n * 1000)) := by
  have hchar : ∀ (n : ℕ) (b : Bool), retryDelayStable n b =
      if 2 < n ∧ n < 5 ∧ b = true then some (min (2 ^ n * 1000) 10000) else none := by
    intro n b
    unfold retryDelayStable maxRetriesStable
    split_ifs <;> first | rfl | (simp_all <;> omega) | omega
  refine ⟨hchar, ?_, ?_, ?_, ?_⟩
  · intro n b d hd
    rw [hchar] at hd
    by_cases hc : 2 < n ∧ n < 5 ∧ b = true
    · rw [if_pos hc] at hd
      simp only [Option.some.injEq] at hd
      rw [← hd]
      exact min_le_right _ _
    · rw [if_neg hc] at hd
      exact absurd hd (by simp)
  · intro n m b1 b2 d e hd he hnm
    rw [hchar] at hd he
    by_cases hcn : 2 < n ∧ n < 5 ∧ b1 = true
    · by_cases hcm : 2 < m ∧ m < 5 ∧ b2 = true
      · rw [if_pos hcn] at hd
        rw [if_pos hcm] at he
        simp only [Option.some.injEq] at hd he
        rw [← hd, ← he]
        exact min_le_min (Nat.mul_le_mul (Nat.pow_le_pow_right (by norm_num) hnm) le_rfl) le_rfl
      · rw [if_neg hcm] at he
        exact absurd he (by simp)
    · rw [if_neg hcn] at hd
      exact absurd hd (by simp)
  · intro n b hn
    rw [hchar]
    have hmax : (5 : ℕ) ≤ n := by simpa [maxRetriesStable] using hn
    rw [if_neg]
    rintro ⟨-, h2, -⟩
    omega
  · intro n hn
    unfold retryDelayReal
    rw [if_pos hn]

/-- Closed witness for `retry_backoff_characterization`: the third failure of
a manual refresh schedules a retry after min(2^3*1000, 10000) = 8000 ms. -/
theorem retry_backoff_characterization_witness :
    retryDelayStable 3 true = some (min (2 ^ 3 * 1000) 10000) := by
  rw [retry_backoff_characterization.1 3 true, if_pos (by norm_num)]

/-- The mutable cell `healthStabilityRef.current` of `useStableSystemStatus`
(src/src/hooks/useStableSystemStatus.js line 31): a counter of consecutive
identical proposed changes and the last proposed health. -/
structure HealthStability where
  consecutive : ℕ
  lastHealth : String
deriving Repr, DecidableEq

/-- Embeds `getStableHealth(proposedHealth, currentHealth)` from
src/src/hooks/useStableSystemStatus.js (lines 46-74) together with its
mutation of `healthStabilityRef`: when the proposal equals the current
health the counter resets to 0; otherwise the counter increments when the
proposal repeats the last proposed value and restarts at 1 when it differs;
the proposal is adopted once the counter reaches 3 consecutive readings, or
immediately when the current health is "optimal" and the proposal is not.
The source mutates the cell first and then tests `stability.consecutive`;
here the mutated counter value is inlined into each branch's test.
Returns the updated stability cell and the health to adopt. -/
def getStableHealth (stability : HealthStability) (proposedHealth currentHealth : String) :
    HealthStability × String :=
  if proposedHealth = currentHealth then
    (⟨0, proposedHealth⟩, proposedHealth)
  else if proposedHealth = stability.lastHealth then
    (⟨stability.consecutive + 1, stability.lastHealth⟩,
      if 3 ≤ stability.consecutive + 1 ∨
          (currentHealth = "optimal" ∧ proposedHealth ≠ "optimal") then
        proposedHealth
      else currentHealth)
  else
    (⟨1, proposedHealth⟩,
      if 3 ≤ 1 ∨ (currentHealth = "optimal" ∧ proposedHealth ≠ "optimal") then
        proposedHealth
      else currentHealth)

/-- The counter grows by at most one per call. -/
theorem getStableHealth_consecutive_le (s : HealthStability) (p c : String) :
    (getStableHealth s p c).1.consecutive ≤ s.consecutive + 1 := by
  unfold getStableHealth
  split_ifs <;> simp

/-- A counter value of at least 1 after a call pins down the last proposed
value: it is this call's proposal, which differed from the current health. -/
theorem getStableHealth_consecutive_ge_one (s : HealthStability) (p c : String)
    (h : 1 ≤ (getStableHealth s p c).1.consecutive) :
    (getStableHealth s p c).1.lastHealth = p ∧ p ≠ c := by
  unfold getStableHealth at h ⊢
  split_ifs at h ⊢ <;> simp_all

/-- A counter value of at least 2 after a call means the call incremented:
the proposal repeated the stored last value, and the previous counter was
one smaller. -/
theorem getStableHealth_consecutive_ge_two (s : HealthStability) (p c : String)
    (h : 2 ≤ (getStableHealth s p c).1.consecutive) :
    p = s.lastHealth ∧ (getStableHealth s p c).1.consecutive = s.consecutive + 1 ∧
    (getStableHealth s p c).1.lastHealth = p ∧ p ≠ c := by
  unfold getStableHealth at h ⊢
  split_ifs at h ⊢ <;> simp_all

/-- A call that changes the reported health either saw its counter reach 3
or took the safety exception away from "optimal". -/
theorem getStableHealth_change (s : HealthStability) (p c : String)
    (h : (getStableHealth s p c).2 ≠ c) :
    (getStableHealth s p c).2 = p ∧
    (3 ≤ (getStableHealth s p c).1.consecutive ∨ (c = "optimal" ∧ p ≠ "optimal")) := by
  unfold getStableHealth at h ⊢
  split_ifs at h ⊢ <;> simp_all

/-- C9: the stabilised health never flickers on a transient reading.  From
the hook's initial stability cell (counter 0, last health "optimal"), a
first or second reading can only change the output through the safety
exception (current health "optimal", proposal not); and from any reachable
state, a third consecutive call that changes the output away from the
current health either took the safety exception or was fed the same
proposed value three times in a row. -/
theorem getStableHealth_debounce :
    (∀ (p c : String), (getStableHealth ⟨0, "optimal"⟩ p c).2 ≠ c →
      ((getStableHealth ⟨0, "optimal"⟩ p c).2 = p ∧ c = "optimal" ∧ p ≠ "optimal")) ∧
    (∀ (p q c : String),
      (getStableHealth (getStableHealth ⟨0, "optimal"⟩ p c).1 q
          (getStableHealth ⟨0, "optimal"⟩ p c).2).2 ≠ (getStableHealth ⟨0, "optimal"⟩ p c).2 →
      ((getStableHealth ⟨0, "optimal"⟩ p c).2 = "optimal" ∧ q ≠ "optimal")) ∧
    (∀ (s : HealthStability) (c p q r : String),
      (getStableHealth
          (getStableHealth (getStableHealth s p c).1 q (getStableHealth s p c).2).1 r
          (getStableHealth (getStableHealth s p c).1 q (getStableHealth s p c).2).2).2 ≠
        (getStableHealth (getStableHealth s p c).1 q (getStableHealth s p c).2).2 →
      (((getStableHealth (getStableHealth s p c).1 q (getStableHealth s p c).2).2 = "optimal" ∧
          r ≠ "optimal") ∨
        (p = q ∧ q = r))) := by
  refine ⟨?_, ?_, ?_⟩
  · intro p c h
    obtain ⟨hout, hcase⟩ := getStableHealth_change _ p c h
    rcases hcase with h3 | hexc
    · have hle := getStableHealth_consecutive_le ⟨0, "optimal"⟩ p c
      simp only at hle
      omega
    · exact ⟨hout, hexc⟩
  · intro p q c h
    obtain ⟨-, hcase⟩ := getStableHealth_change _ q _ h
    rcases hcase with h3 | hexc
    · have h1 := getStableHealth_consecutive_le ⟨0, "optimal"⟩ p c
      have h2 := getStableHealth_consecutive_le (getStableHealth ⟨0, "optimal"⟩ p c).1 q
        (getStableHealth ⟨0, "optimal"⟩ p c).2
      simp only at h1
      omega
    · exact hexc
  · intro s c p q r h
    obtain ⟨-, hcase⟩ := getStableHealth_change _ r _ h
    rcases hcase with h3 | hexc
    · refine Or.inr ?_
      obtain ⟨hr, hstep3, -, -⟩ :=
        getStableHealth_consecutive_ge_two
          (getStableHealth (getStableHealth s p c).1 q (getStableHealth s p c).2).1 r
          (getStableHealth (getStableHealth s p c).1 q (getStableHealth s p c).2).2
          (by omega)
      have hs2 : 2 ≤ (getStableHealth (getStableHealth s p c).1 q
          (getStableHealth s p c).2).1.consecutive := by omega
      obtain ⟨hq, hstep2, hlast2, -⟩ :=
        getStableHealth_consecutive_ge_two (getStableHealth s p c).1 q
          (getStableHealth s p c).2 hs2
      have hs1 : 1 ≤ (getStableHealth s p c).1.consecutive := by omega
      obtain ⟨hlast1, -⟩ := getStableHealth_consecutive_ge_one s p c hs1
      constructor
      · rw [hq, hlast1]
      · rw [hr, hlast2]
    · exact Or.inl hexc

/-- Closed witness for `getStableHealth_debounce`: from the initial cell,
with current health "warning", three consecutive "critical" proposals force
a change, and the disjunct realised is three identical readings. -/
theorem getStableHealth_debounce_witness :
    ((getStableHealth
        (getStableHealth (getStableHealth ⟨0, "optimal"⟩ "critical" "warning").1 "critical"
          (getStableHealth ⟨0, "optimal"⟩ "critical" "warning").2).1 "critical"
        (getStableHealth (getStableHealth ⟨0, "optimal"⟩ "critical" "warning").1 "critical"
          (getStableHealth ⟨0, "optimal"⟩ "critical" "warning").2).2).2 ≠
      (getStableHealth (getStableHealth ⟨0, "optimal"⟩ "critical" "warning").1 "critical"
        (getStableHealth ⟨0, "optimal"⟩ "critical" "warning").2).2) ∧
    (((getStableHealth (getStableHealth ⟨0, "optimal"⟩ "critical" "warning").1 "critical"
          (getStableHealth ⟨0, "optimal"⟩ "critical" "warning").2).2 = "optimal" ∧
        ("critical" : String) ≠ "optimal") ∨
      (("critical" : String) = "critical" ∧ ("critical" : String) = "critical")) :=
  ⟨by decide,
   getStableHealth_debounce.2.2 ⟨0, "optimal"⟩ "warning" "critical" "critical" "critical"
     (by decide)⟩

/-- The raw backend alert as consumed by `formatAlerts` in
`useStableAlertSystem` (src/src/hooks/useAlertSystem.js lines 115-133):
every field may be absent.  The `alert_level?.value` unwrapping of an
enum-object level is not modelled; the level is a plain string or absent. -/
structure RawAlert where
  id : Option String
  timestamp : Option ℚ
  camera_id : Option String
  alert_level : Option String
  confidence : Option ℚ
  acknowledged : Option Bool
  location : Option String
  description : Option String
deriving Repr, DecidableEq

/-- JS `x || fallback` on an optional string: absent and the empty string
are falsy. -/
def strOr (v : Option String) (fallback : String) : String :=
  match v with
  | none => fallback
  | some s => if s = "" then fallback else s

/-- JS `x || fallback` on an optional number: absent and 0 are falsy (NaN is
outside the rational model). -/
def numOr (v : Option ℚ) (fallback : ℚ) : ℚ :=
  match v with
  | none => fallback
  | some x => if x = 0 then fallback else x

/-- JS truthiness of an optional boolean: truthy exactly when present and
true. -/
def isTruthy (v : Option Bool) : Bool :=
  match v with
  | none => false
  | some b => b

/-- The generated fallback id `alert_${Date.now()}_${index}`
(src/src/hooks/useAlertSystem.js line 123). -/
def fallbackId (now index : ℕ) : String :=
  "alert_" ++ toString now ++ "_" ++ toString index

/-- The per-record body of `formatAlerts` (src/src/hooks/useAlertSystem.js
lines 118-132): each field defaulted through JS `||`, the status derived
from the truthiness of `acknowledged`. `now` stands for `Date.now()` in
milliseconds. -/
def formatOne (now index : ℕ) (alert : RawAlert) : Alert :=
  { id := strOr alert.id (fallbackId now index),
    timestamp := numOr alert.timestamp ((now : ℚ) / 1000),
    camera_id := strOr alert.camera_id "Unknown",
    alert_level := strOr alert.alert_level "P4",
    confidence := numOr alert.confidence 0,
    status := if isTruthy alert.acknowledged then "acknowledged" else "active",
    location := strOr alert.location "Unknown",
    description := strOr alert.description
      ("Alert from " ++ strOr alert.camera_id "Unknown") }

/-- The indexed map underlying `rawAlerts.map((alert, index) => ...)`. -/
def formatAlertsFrom (now : ℕ) : ℕ → List RawAlert → List Alert
  | _, [] => []
  | index, alert :: rest => formatOne now index alert :: formatAlertsFrom now (index + 1) rest

/-- Embeds `formatAlerts(rawAlerts)` from `useStableAlertSystem`
(src/src/hooks/useAlertSystem.js lines 115-133): a non-array input (`none`)
yields the empty list; an array is mapped with its index. -/
def formatAlerts (now : ℕ) (rawAlerts : Option (List RawAlert)) : List Alert :=
  match rawAlerts with
  | none => []
  | some l => formatAlertsFrom now 0 l

/-- Each output entry of the indexed map is the formatted corresponding
input entry. -/
theorem formatAlertsFrom_getElem (now : ℕ) (l : List RawAlert) :
    ∀ (j i : ℕ) (h : i < l.length),
      (formatAlertsFrom now j l)[i]? = some (formatOne now (j + i) (l.get ⟨i, h⟩)) := by
  induction l with
  | nil =>
    intro j i h
    simp at h
  | cons a t ih =>
    intro j i h
    cases i with
    | zero => simp [formatAlertsFrom]
    | succ k =>
      have hk : k < t.length := by simpa using h
      have hidx : j + (k + 1) = (j + 1) + k := by omega
      simp only [formatAlertsFrom, List.getElem?_cons_succ, List.get_cons_succ]
      rw [ih (j + 1) k hk, hidx]

/-- The generated fallback id is never the empty string. -/
theorem fallbackId_ne_empty (now index : ℕ) : fallbackId now index ≠ "" := by
  have hlen : 1 ≤ (fallbackId now index).length := by
    unfold fallbackId
    rw [String.length_append, String.length_append, String.length_append]
    have h6 : "alert_".length = 6 := rfl
    omega
  intro hcontra
  rw [hcontra] at hlen
  exact absurd hlen (by decide)

/-- C10: `formatAlerts` is total and normalizing — a non-array input yields
the empty list; an array input is mapped entry by entry, preserving length;
each output entry has status "acknowledged" exactly when the input record's
`acknowledged` field is truthy (and "active" otherwise), an `alert_level`
defaulting to "P4" when absent, a confidence defaulting to 0 when absent,
and a non-empty id (freshly generated when the input id is missing). -/
theorem formatAlerts_total_normalizing :
    (∀ now : ℕ, formatAlerts now none = []) ∧
    (∀ (now : ℕ) (l : List RawAlert), (formatAlerts now (some l)).length = l.length) ∧
    (∀ (now : ℕ) (l : List RawAlert) (i : ℕ) (h : i < l.length),
      ∃ b : Alert, (formatAlerts now (some l))[i]? = some b ∧
        ((b.status = "acknowledged" ↔ (l.get ⟨i, h⟩).acknowledged = some true) ∧
         (b.status = "acknowledged" ∨ b.status = "active")) ∧
        ((l.get ⟨i, h⟩).alert_level = none → b.alert_level = "P4") ∧
        ((l.get ⟨i, h⟩).confidence = none → b.confidence = 0) ∧
        b.id ≠ "") := by
  have hlen : ∀ (now j : ℕ) (l : List RawAlert),
      (formatAlertsFrom now j l).length = l.length := by
    intro now j l
    induction l generalizing j with
    | nil => rfl
    | cons a t ih => simp [formatAlertsFrom, ih]
  refine ⟨fun _ => rfl, fun now l => hlen now 0 l, ?_⟩
  intro now l i h
  refine ⟨formatOne now (0 + i) (l.get ⟨i, h⟩),
    formatAlertsFrom_getElem now l 0 i h, ?_⟩
  generalize l.get ⟨i, h⟩ = a
  refine ⟨⟨?_, ?_⟩, ?_, ?_, ?_⟩
  · cases hak : a.acknowledged with
    | none => simp [formatOne, isTruthy, hak]
    | some b => cases b <;> simp [formatOne, isTruthy, hak]
  · by_cases hb : isTruthy a.acknowledged = true
    · exact Or.inl (by simp [formatOne, hb])
    · exact Or.inr (by simp [formatOne, hb])
  · intro hnone
    simp [formatOne, strOr, hnone]
  · intro hnone
    simp [formatOne, numOr, hnone]
  · cases hid : a.id with
    | none => simpa [formatOne, strOr, hid] using fallbackId_ne_empty now (0 + i)
    | some s =>
      by_cases hs : s = ""
      · simpa [formatOne, strOr, hid, hs] using fallbackId_ne_empty now (0 + i)
      · simp [formatOne, strOr, hid, hs]

/-- Closed witness for `formatAlerts_total_normalizing`: a record missing
every field is normalized to an active "P4" alert with confidence 0 and a
generated non-empty id. -/
theorem formatAlerts_total_normalizing_witness :
    ∃ b : Alert,
      (formatAlerts 1700000000000
          (some [⟨none, none, none, none, none, none, none, none⟩]))[0]? = some b ∧
      ((b.status = "acknowledged" ↔
          (([⟨none, none, none, none, none, none, none, none⟩] :
              List RawAlert).get ⟨0, by decide⟩).acknowledged = some true) ∧
       (b.status = "acknowledged" ∨ b.status = "active")) ∧
      ((([⟨none, none, none, none, none, none, none, none⟩] :
          List RawAlert).get ⟨0, by decide⟩).alert_level = none → b.alert_level = "P4") ∧
      ((([⟨none, none, none, none, none, none, none, none⟩] :
          List RawAlert).get ⟨0, by decide⟩).confidence = none → b.confidence = 0) ∧
      b.id ≠ "" :=
  formatAlerts_total_normalizing.2.2 1700000000000
    [⟨none, none, none, none, none, none, none, none⟩] 0 (by decide)
